import Mathlib

/-!
Shallow embedding of the Aequitas-MVP risk and return assessment engine
(`backend/app/services`), together with proofs about its specification.

Conventions used throughout:
* Python floats are modelled by `ℚ` wherever the source only performs field
  arithmetic and comparisons; the trigonometric Haversine helper and the two
  hazard calculators built on it are modelled over `ℝ`.
* Python `round(x, n)` (banker's rounding at `n` decimals) is modelled by
  `pyRound` below, stated for decimal fractions rather than binary floats.
* Python `datetime` values are modelled as rational "seconds"; a
  `timedelta(days = d)` is `d * 86400`.
* Fallible operations (HTTP lookups, missing dict keys) are modelled with
  `Except`/`Option`; a Python `try/except` block becomes a `match` on them.
-/

/-- Banker's rounding of a rational (or real) to an integer: round to nearest,
ties to the even integer.  Models Python's `round` applied to a value that is
exactly representable. -/
def halfEvenRound {α : Type} [LinearOrderedField α] [FloorRing α] (x : α) : ℤ :=
  if x - ⌊x⌋ = 1 / 2 then (if ⌊x⌋ % 2 = 0 then ⌊x⌋ else ⌊x⌋ + 1) else round x

/-- Python `round(x, d)`: banker's rounding at `d` decimal places. -/
def pyRound {α : Type} [LinearOrderedField α] [FloorRing α] (d : ℕ) (x : α) : α :=
  (halfEvenRound ((10 ^ d : α) * x) : α) / (10 ^ d : α)

/-- Lookup in an association list keyed by strings (models a Python dict of
numbers; `none` models a missing key). -/
def lookupQ (l : List (String × ℚ)) (k : String) : Option ℚ :=
  match l.find? (fun p => p.1 == k) with
  | some p => some p.2
  | none => none

/-! ## `RiskAssessmentService.calculate_regulatory_risk` -/

/-- The reference tables loaded from `regulatory_data.json`
(`load_regulatory_data`); the engine treats them as read-only inputs. -/
structure RegulatoryData where
  rentControlStates : List String
  rentControlCities : List String
  rpsStateScores : List (String × ℚ)
  democraticTrifecta : List String
  dividedGovernment : List String
  republicanTrifecta : List String
  highUncertaintyStates : List String
  moderateUncertaintyStates : List String
deriving DecidableEq

/-- The dictionary returned by `calculate_regulatory_risk` (interpretation
string omitted; the `components` sub-dictionary is inlined as fields). -/
structure RegulatoryRisk where
  has_rent_control : Bool
  rps_score : ℚ
  political_risk : String
  policy_uncertainty : String
  ami_risk : String
  regulatory_risk_score : ℚ
  rent_control_score : ℚ
  rps_risk_score : ℚ
  political_risk_score : ℚ
  uncertainty_score : ℚ
  ami_risk_score : ℚ
deriving DecidableEq

/-- Embedding of `RiskAssessmentService.calculate_regulatory_risk`
(`risk_assessment_service.py`, lines 145-285).  `rent_level` is accepted but
unused by the source, so it is omitted here.  Note that the source guards the
AMI test with `if ami_percentage:`, which is false both for `None` and for a
supplied value of `0.0` (Python truthiness). -/
def calculate_regulatory_risk (data : RegulatoryData) (state : String)
    (city : Option String) (ami_percentage : Option ℚ) : RegulatoryRisk :=
  -- Test 1: rent control (state-level 20 pts, city-level 25 pts)
  let stateRC := data.rentControlStates.contains state
  let cityRC := match city with
    | some c => data.rentControlCities.contains (c ++ ", " ++ state)
    | none => false
  let rent_control_score : ℚ := if cityRC then 25 else if stateRC then 20 else 0
  -- Test 2: renter protection score, dict lookup with default 1.5
  let rps_score := (lookupQ data.rpsStateScores state).getD (3 / 2)
  let rps_risk_score := rps_score / 5 * 30
  -- Test 3: political control (each branch assigns a label and a score)
  let political_risk : String :=
    if data.democraticTrifecta.contains state then "High"
    else if data.dividedGovernment.contains state then "Moderate"
    else if data.republicanTrifecta.contains state then "Low"
    else "Low"
  let political_risk_score : ℚ :=
    if data.democraticTrifecta.contains state then 20
    else if data.dividedGovernment.contains state then 10
    else if data.republicanTrifecta.contains state then 0
    else 0
  -- Test 4: policy uncertainty index
  let policy_uncertainty : String :=
    if data.highUncertaintyStates.contains state then "High"
    else if data.moderateUncertaintyStates.contains state then "Moderate"
    else "Low"
  let uncertainty_score : ℚ :=
    if data.highUncertaintyStates.contains state then 15
    else if data.moderateUncertaintyStates.contains state then 15 / 2
    else 0
  -- Test 5: AMI threshold proximity (`if ami_percentage:` skips 0.0)
  let ami_risk : String :=
    match ami_percentage with
    | some a =>
        if a = 0 then "Low"
        else if a ≤ 50 then "High"
        else if a ≤ 80 then "Moderate"
        else "Low"
    | none => "Low"
  let ami_risk_score : ℚ :=
    match ami_percentage with
    | some a =>
        if a = 0 then 0
        else if a ≤ 50 then 15
        else if a ≤ 80 then 15 / 2
        else 0
    | none => 0
  let total := rent_control_score + rps_risk_score + political_risk_score +
    uncertainty_score + ami_risk_score
  let capped := min total 100
  { has_rent_control := stateRC || cityRC
    rps_score := rps_score
    political_risk := political_risk
    policy_uncertainty := policy_uncertainty
    ami_risk := ami_risk
    regulatory_risk_score := pyRound 1 capped
    rent_control_score := rent_control_score
    rps_risk_score := rps_risk_score
    political_risk_score := political_risk_score
    uncertainty_score := uncertainty_score
    ami_risk_score := ami_risk_score }

/-- Spec-side formula for the regulatory risk total, written from the claim's
words, with the AMI component awarded whenever an AMI ratio is supplied (the
reading under which the claim is tested). -/
def claimRegulatorySum (data : RegulatoryData) (state : String)
    (city : Option String) (ami_percentage : Option ℚ) : ℚ :=
  let rentControl : ℚ :=
    if (match city with
        | some c => data.rentControlCities.contains (c ++ ", " ++ state)
        | none => false) then 25
    else if data.rentControlStates.contains state then 20 else 0
  let rps := (lookupQ data.rpsStateScores state).getD (3 / 2)
  let political : ℚ :=
    if data.democraticTrifecta.contains state then 20
    else if data.dividedGovernment.contains state then 10 else 0
  let uncertainty : ℚ :=
    if data.highUncertaintyStates.contains state then 15
    else if data.moderateUncertaintyStates.contains state then 15 / 2 else 0
  let amiComponent : ℚ :=
    match ami_percentage with
    | some a => if a ≤ 50 then 15 else if a ≤ 80 then 15 / 2 else 0
    | none => 0
  rentControl + rps / 5 * 30 + political + uncertainty + amiComponent

/-- Spec-side formula as amended: a supplied AMI ratio of exactly 0
contributes no points (matching Python truthiness in the source). -/
def claimRegulatorySumAmended (data : RegulatoryData) (state : String)
    (city : Option String) (ami_percentage : Option ℚ) : ℚ :=
  let rentControl : ℚ :=
    if (match city with
        | some c => data.rentControlCities.contains (c ++ ", " ++ state)
        | none => false) then 25
    else if data.rentControlStates.contains state then 20 else 0
  let rps := (lookupQ data.rpsStateScores state).getD (3 / 2)
  let political : ℚ :=
    if data.democraticTrifecta.contains state then 20
    else if data.dividedGovernment.contains state then 10 else 0
  let uncertainty : ℚ :=
    if data.highUncertaintyStates.contains state then 15
    else if data.moderateUncertaintyStates.contains state then 15 / 2 else 0
  let amiComponent : ℚ :=
    match ami_percentage with
    | some a =>
        if a = 0 then 0
        else if a ≤ 50 then 15 else if a ≤ 80 then 15 / 2 else 0
    | none => 0
  rentControl + rps / 5 * 30 + political + uncertainty + amiComponent

/-- An empty regulatory reference table: no rent-control jurisdictions, no RPS
entries, no political or uncertainty classifications. -/
def emptyRegulatoryData : RegulatoryData :=
  { rentControlStates := []
    rentControlCities := []
    rpsStateScores := []
    democraticTrifecta := []
    dividedGovernment := []
    republicanTrifecta := []
    highUncertaintyStates := []
    moderateUncertaintyStates := [] }

/-! ## `RiskAssessmentService.calculate_composite_risk` -/

/-- The climate-risk dictionary as inspected by `calculate_composite_risk`:
only the presence of the `climate_risk_score` key and the value of the
`climate_risk_level` key matter (`none` models an absent key). -/
structure ClimateDict where
  climate_risk_score : Option ℚ
  climate_risk_level : Option String
deriving DecidableEq

/-- The availability check
`climate_risk and 'climate_risk_score' in climate_risk and
climate_risk.get('climate_risk_level') != 'Unknown'`
(`risk_assessment_service.py`, lines 486-490).  A dict holding a
`climate_risk_score` key is nonempty, hence truthy, so the first conjunct is
subsumed by the second. -/
def hasClimateRisk (climate_risk : Option ClimateDict) : Bool :=
  match climate_risk with
  | some d => d.climate_risk_score.isSome && d.climate_risk_level != some "Unknown"
  | none => false

/-- The `climate_risk['climate_risk_score']` access, only reached when
`hasClimateRisk` holds (so the `0` default is never used). -/
def climateScoreOf (climate_risk : Option ClimateDict) : ℚ :=
  match climate_risk with
  | some d => d.climate_risk_score.getD 0
  | none => 0

/-- The dictionary returned by `calculate_composite_risk` (interpretation and
validation strings omitted). -/
structure CompositeRisk where
  composite_risk_score : ℚ
  composite_risk_level : String
  systematic_weight : ℤ
  regulatory_weight : ℤ
  idiosyncratic_weight : ℤ
  climate_weight : ℤ
  has_climate_risk : Bool
deriving DecidableEq

/-- Embedding of `RiskAssessmentService.calculate_composite_risk`
(`risk_assessment_service.py`, lines 433-588).  The three sub-scores are
passed as the numbers the source extracts from its dict arguments;
`rent_decile` only feeds the omitted validation/interpretation strings. -/
def calculate_composite_risk (systematic_score regulatory_score idiosyncratic_score : ℚ)
    (rent_decile : ℤ) (climate_risk : Option ClimateDict) : CompositeRisk :=
  let _ := rent_decile
  let has := hasClimateRisk climate_risk
  let score : ℚ :=
    if has then
      systematic_score * 0.30 + regulatory_score * 0.25 +
        idiosyncratic_score * 0.25 + climateScoreOf climate_risk * 0.20
    else
      systematic_score * 0.40 + regulatory_score * 0.30 + idiosyncratic_score * 0.30
  let level : String :=
    if score < 35 then "Low"
    else if score < 55 then "Medium"
    else if score < 75 then "High"
    else "Very High"
  { composite_risk_score := pyRound 1 score
    composite_risk_level := level
    systematic_weight := if has then 30 else 40
    regulatory_weight := if has then 25 else 30
    idiosyncratic_weight := if has then 25 else 30
    climate_weight := if has then 20 else 0
    has_climate_risk := has }

/-! ## `DealMemoService._generate_recommendation` (rating logic) -/

/-- Embedding of the rating cascade of `DealMemoService._generate_recommendation`
(`deal_memo_service.py`, lines 337-352); the strengths/concerns text is
omitted.  Returns the `overall_rating` label and `rating_score`. -/
def generate_recommendation (total_return_unlevered : ℚ)
    (composite_risk_score : ℚ) (arbitrage_score : ℚ) : String × ℤ :=
  if total_return_unlevered > 8 ∧ composite_risk_score < 45 ∧ arbitrage_score > 70 then
    ("Strong Buy", 90)
  else if total_return_unlevered > 6 ∧ composite_risk_score < 55 ∧ arbitrage_score > 55 then
    ("Buy", 75)
  else if total_return_unlevered > 4 ∧ composite_risk_score < 65 then
    ("Hold", 60)
  else if total_return_unlevered > 2 then
    ("Consider", 45)
  else
    ("Pass", 30)

/-! ## `DealMemoService.generate_comparison_memo` and `_rank_deals` -/

/-- The fields of a generated deal memo read by `_rank_deals`: the levered and
unlevered total return, the composite risk score, the arbitrage opportunity
score, and the recommendation's rating score. -/
structure DealMemo where
  total_return_levered : ℚ
  total_return_unlevered : ℚ
  composite_risk_score : ℚ
  arbitrage_opportunity_score : ℚ
  rating_score : ℚ
deriving DecidableEq

/-- Descending stable sort by a rational key, modelling Python's
`sorted(..., key=..., reverse=True)` up to the order of equal keys (which no
theorem below depends on). -/
def sortDescBy (key : ℤ × DealMemo → ℚ) (l : List (ℤ × DealMemo)) :
    List (ℤ × DealMemo) :=
  l.mergeSort (fun x y => decide (key y ≤ key x))

/-- The four ranking lists produced by `DealMemoService._rank_deals`. -/
structure Rankings where
  by_total_return : List (ℤ × DealMemo)
  by_risk_adjusted_return : List (ℤ × DealMemo)
  by_arbitrage_opportunity : List (ℤ × DealMemo)
  by_overall_rating : List (ℤ × DealMemo)

/-- Embedding of `DealMemoService._rank_deals` (`deal_memo_service.py`, lines
601-649): entries whose memo generation failed (`'error' in memo`) are dropped,
the rest are sorted descending on each of the four metrics (the
risk-adjusted key uses `max(risk, 1)` as divisor). -/
def rank_deals (deals : List (ℤ × Except String DealMemo)) : Rankings :=
  let valid : List (ℤ × DealMemo) :=
    deals.filterMap (fun p =>
      match p.2 with
      | .ok m => some (p.1, m)
      | .error _ => none)
  { by_total_return := sortDescBy (fun p => p.2.total_return_levered) valid
    by_risk_adjusted_return :=
      sortDescBy (fun p => p.2.total_return_unlevered / max p.2.composite_risk_score 1) valid
    by_arbitrage_opportunity := sortDescBy (fun p => p.2.arbitrage_opportunity_score) valid
    by_overall_rating := sortDescBy (fun p => p.2.rating_score) valid }

/-- The comparison output: the per-deal slots (a memo, or the recorded error
entry for deals whose generation raised) and the rankings. -/
structure ComparisonResult where
  deals : List (ℤ × Except String DealMemo)
  rankings : Rankings

/-- Embedding of `DealMemoService.generate_comparison_memo`
(`deal_memo_service.py`, lines 561-599).  `gen` stands for
`DealMemoService.generate_memo`, whose exceptions for one deal are caught and
recorded as that deal's error entry.  The two `ValueError`s raised for bad
batch sizes are the `Except.error` cases.  Deal ids are assumed distinct (the
source stores slots in a dict keyed by deal id). -/
def generate_comparison_memo (gen : ℤ → Except String DealMemo)
    (deal_ids : List ℤ) : Except String ComparisonResult :=
  if deal_ids.length < 2 then .error "Need at least 2 deals to compare"
  else if deal_ids.length > 5 then .error "Maximum 5 deals for comparison"
  else
    let deals := deal_ids.map (fun i => (i, gen i))
    .ok { deals := deals, rankings := rank_deals deals }

/-! ## Climate risk cache (`ClimateRiskCache`, `_get_cached_risk`, `_store_in_cache`) -/

/-- A row of the `climate_risk_cache` table (`database.py`, `ClimateRiskCache`);
the JSON `risk_details` payload is omitted.  Times are rational seconds. -/
structure ClimateRiskCacheEntry where
  latitude : ℚ
  longitude : ℚ
  hazard_type : String
  risk_score : ℚ
  data_source : String
  created_at : ℚ
  expires_at : Option ℚ
deriving DecidableEq

/-- Embedding of `ClimateRiskCache.is_expired` (`database.py`, lines
1431-1435): an entry with no expiry never expires; otherwise it is expired
once the current time is strictly after `expires_at`. -/
def is_expired (now : ℚ) (e : ClimateRiskCacheEntry) : Bool :=
  match e.expires_at with
  | none => false
  | some t => now > t

/-- The cache table, ordered as the query scan order (`first()` takes the
first matching row). -/
abbrev CacheState := List ClimateRiskCacheEntry

/-- The `filter_by(latitude=..., longitude=..., hazard_type=...)` predicate.
The coordinates are expected already rounded by the caller. -/
def cache_key_match (lat lon : ℚ) (hazard : String) (e : ClimateRiskCacheEntry) : Bool :=
  e.latitude == lat && e.longitude == lon && e.hazard_type == hazard

/-- The dictionary returned on a cache hit by `_get_cached_risk`. -/
structure CachedRisk where
  score : ℚ
  data_source : String
  cached : Bool
  cached_at : ℚ
deriving DecidableEq

/-- Embedding of `ClimateRiskService._get_cached_risk`
(`climate_risk_service.py`, lines 168-216).  Coordinates are rounded to 4
decimals for the key; a found non-expired entry is returned with
`cached = True`; a found expired entry is deleted and the lookup is a miss. -/
def get_cached_risk (st : CacheState) (now lat lon : ℚ) (hazard : String) :
    Option CachedRisk × CacheState :=
  let latR := pyRound 4 lat
  let lonR := pyRound 4 lon
  match st.find? (cache_key_match latR lonR hazard) with
  | some e =>
      if is_expired now e then
        (none, st.eraseP (cache_key_match latR lonR hazard))
      else
        (some { score := e.risk_score, data_source := e.data_source,
                cached := true, cached_at := e.created_at }, st)
  | none => (none, st)

/-- Replace the first element satisfying `p` (models mutating the single row
returned by `first()`). -/
def update_first {α : Type} (p : α → Bool) (f : α → α) : List α → List α
  | [] => []
  | x :: xs => if p x then f x :: xs else x :: update_first p f xs

/-- Embedding of `ClimateRiskService._store_in_cache`
(`climate_risk_service.py`, lines 218-277): update the existing row for the
rounded key if present, else insert a new row; either way the entry's expiry
becomes `now + ttl_days` days. -/
def store_in_cache (st : CacheState) (now lat lon : ℚ) (hazard : String)
    (risk_score : ℚ) (data_source : String) (ttl_days : ℚ) : CacheState :=
  let latR := pyRound 4 lat
  let lonR := pyRound 4 lon
  match st.find? (cache_key_match latR lonR hazard) with
  | some _ =>
      update_first (cache_key_match latR lonR hazard)
        (fun e => { e with risk_score := risk_score, data_source := data_source,
                           created_at := now, expires_at := some (now + ttl_days * 86400) }) st
  | none =>
      st ++ [{ latitude := latR, longitude := lonR, hazard_type := hazard,
               risk_score := risk_score, data_source := data_source,
               created_at := now, expires_at := some (now + ttl_days * 86400) }]

/-! ## Hazard calculators over the cache (`calculate_wildfire_risk`, `calculate_flood_risk`) -/

/-- The slice of `climate_risk_config.json` the embedded calculators read.
`cache_ttl_days` and `hazard_weights` are accessed with `[...]` in the source,
so a missing key there raises (modelled by `lookupQ` returning `none`);
the flood scoring thresholds are accessed with `.get` and defaults. -/
structure ClimateConfig where
  cache_ttl_days : List (String × ℚ)
  hazard_weights : List (String × ℚ)
  flood_zone_mappings : List (String × (ℚ × ℚ))
  flood_default : ℚ × ℚ
deriving DecidableEq

/-- The result dictionary of one hazard calculator, restricted to the fields
the claims mention.  `cached = none` models a fallback dictionary carrying no
`cached` key; `label` holds `hazard_level`/`flood_zone`-style keys when
present; `error` is the recorded exception text on the fallback path. -/
structure HazardResult where
  score : ℚ
  cached : Option Bool
  data_source : String
  label : Option String
  error : Option String
deriving DecidableEq

/-- The geographic base score of `ClimateRiskService.calculate_wildfire_risk`
(`climate_risk_service.py`, lines 444-474): latitude/longitude bounding boxes
checked in source order. -/
def wildfire_base_score (lat lon : ℚ) : ℚ :=
  let is_western := -125 ≤ lon ∧ lon ≤ -102
  let is_southwestern := (31 ≤ lat ∧ lat ≤ 42) ∧ (-125 ≤ lon ∧ lon ≤ -102)
  let is_california := (32 ≤ lat ∧ lat ≤ 42) ∧ (-125 ≤ lon ∧ lon ≤ -114)
  let is_pacific_nw := (42 ≤ lat ∧ lat ≤ 49) ∧ (-125 ≤ lon ∧ lon ≤ -116)
  let is_mountain_west := (35 ≤ lat ∧ lat ≤ 49) ∧ (-116 ≤ lon ∧ lon ≤ -102)
  if is_california then 85
  else if is_pacific_nw then 70
  else if is_southwestern then 75
  else if is_mountain_west then 65
  else if is_western then 55
  else 20

/-- The `hazard_level` label for a wildfire score
(`climate_risk_service.py`, lines 477-491). -/
def wildfire_hazard_level (score : ℚ) : String :=
  if score ≥ 90 then "Very High"
  else if score ≥ 70 then "High"
  else if score ≥ 40 then "Moderate"
  else if score ≥ 20 then "Low"
  else "Very Low"

/-- Embedding of `ClimateRiskService.calculate_wildfire_risk`
(`climate_risk_service.py`, lines 418-525).  On a cache hit the cached score
is returned with `cached = True`; on a miss the geographic score is computed,
stored with the configured TTL, and returned with `cached = False`.  The only
fallible step inside the `try` block is the `config['cache_ttl_days']['wildfire']`
access; its failure is caught and yields the fixed fallback dictionary
(score 30, `data_source` `'N/A'`), leaving the cache unwritten. -/
def calculate_wildfire_risk (cfg : ClimateConfig) (st : CacheState)
    (now lat lon : ℚ) : HazardResult × CacheState :=
  match get_cached_risk st now lat lon "wildfire" with
  | (some c, st1) =>
      ({ score := c.score, cached := some true, data_source := c.data_source,
         label := none, error := none }, st1)
  | (none, st1) =>
      let base := wildfire_base_score lat lon
      let result : HazardResult :=
        { score := pyRound 1 base, cached := some false,
          data_source := "Geographic heuristics (simplified)",
          label := some (wildfire_hazard_level base), error := none }
      match lookupQ cfg.cache_ttl_days "wildfire" with
      | some ttl =>
          (result, store_in_cache st1 now lat lon "wildfire" result.score
            "Geographic heuristics" ttl)
      | none =>
          ({ score := 30, cached := none, data_source := "N/A",
             label := some "Unknown", error := some "KeyError: cache_ttl_days" }, st1)

/-- Embedding of `ClimateRiskService.calculate_flood_risk`
(`climate_risk_service.py`, lines 299-416).  `fema_response` models the FEMA
NFHL query: `Except.error` is any exception (timeout, HTTP error, bad JSON),
`Except.ok zone?` a response whose parsed flood zone is `zone?`.  Any failure
inside the `try` block yields the fixed fallback dictionary: score 25.0,
`flood_zone 'Unknown'`, `data_source` `'FEMA NFHL (unavailable)'`. -/
def calculate_flood_risk (cfg : ClimateConfig) (st : CacheState)
    (now lat lon : ℚ) (fema_response : Except String (Option String)) :
    HazardResult × CacheState :=
  match get_cached_risk st now lat lon "flood" with
  | (some c, st1) =>
      ({ score := c.score, cached := some true, data_source := c.data_source,
         label := none, error := none }, st1)
  | (none, st1) =>
      match fema_response with
      | .error e =>
          ({ score := 25, cached := none, data_source := "FEMA NFHL (unavailable)",
             label := some "Unknown", error := some e }, st1)
      | .ok zone? =>
          let scored : ℚ × String :=
            match zone? with
            | some z =>
                match (cfg.flood_zone_mappings.find? (fun p => p.1 == z)).map Prod.snd with
                | some range => ((range.1 + range.2) / 2, z)
                | none => ((cfg.flood_default.1 + cfg.flood_default.2) / 2, z)
            | none => (10, "X")
          let result : HazardResult :=
            { score := pyRound 1 scored.1, cached := some false,
              data_source := "FEMA NFHL", label := some scored.2, error := none }
          match lookupQ cfg.cache_ttl_days "flood" with
          | some ttl =>
              (result, store_in_cache st1 now lat lon "flood" result.score "FEMA NFHL" ttl)
          | none =>
              ({ score := 25, cached := none, data_source := "FEMA NFHL (unavailable)",
                 label := some "Unknown", error := some "KeyError: cache_ttl_days" }, st1)

/-! ## `ClimateRiskService.calculate_composite_climate_risk` (aggregation step) -/

/-- The composite result fields the claims mention. -/
structure ClimateResult where
  climate_risk_score : ℚ
  climate_risk_level : String
deriving DecidableEq

/-- The weighted-sum loop of `calculate_composite_climate_risk`
(`climate_risk_service.py`, lines 1230-1234): every hazard dictionary carries a
`score` key, and each `hazard_weights[hazard]` access raises `KeyError` if the
weight is missing (the fallible part of the `try` block). -/
def composite_weighted_sum (weights : List (String × ℚ)) :
    List (String × ℚ) → Except String ℚ
  | [] => .ok 0
  | (h, s) :: rest =>
      match lookupQ weights h with
      | some w => (composite_weighted_sum weights rest).map (fun t => s * w + t)
      | none => .error ("KeyError: " ++ h)

/-- Embedding of the aggregation and fallback of
`ClimateRiskService.calculate_composite_climate_risk`
(`climate_risk_service.py`, lines 1174-1288).  The eight hazard sub-results
are passed as `(hazard, score)` pairs: each sub-calculator is itself total
(see `calculate_flood_risk`/`calculate_wildfire_risk`), so the `except` branch
— which returns score 25.0 and `climate_risk_level 'Unknown'` — triggers
exactly when the weighted-sum loop raises. -/
def calculate_composite_climate_risk (weights : List (String × ℚ))
    (hazards : List (String × ℚ)) : ClimateResult :=
  match composite_weighted_sum weights hazards with
  | .ok total =>
      { climate_risk_score := pyRound 1 total
        climate_risk_level :=
          if total < 25 then "Low"
          else if total < 50 then "Medium"
          else if total < 75 then "High"
          else "Very High" }
  | .error _ =>
      { climate_risk_score := 25, climate_risk_level := "Unknown" }

/-! ## Haversine distance and the coastal-proximity calculators (over `ℝ`) -/

/-- `math.radians`: degrees to radians. -/
noncomputable def radians (x : ℝ) : ℝ := x * Real.pi / 180

/-- Embedding of `ClimateRiskService.calculate_distance_miles`
(`climate_risk_service.py`, lines 279-297): the Haversine great-circle
distance in miles with earth radius 3956. -/
noncomputable def calculate_distance_miles (lat1 lon1 lat2 lon2 : ℝ) : ℝ :=
  let lat1r := radians lat1
  let lon1r := radians lon1
  let lat2r := radians lat2
  let lon2r := radians lon2
  let dlat := lat2r - lat1r
  let dlon := lon2r - lon1r
  let a := Real.sin (dlat / 2) ^ 2 +
    Real.cos lat1r * Real.cos lat2r * Real.sin (dlon / 2) ^ 2
  let c := 2 * Real.arcsin (Real.sqrt a)
  c * 3956

/-- Atlantic coastline reference points of `calculate_hurricane_risk`
(Miami, Orlando, Charleston, Norfolk, New York, Boston). -/
noncomputable def atlantic_points : List (ℝ × ℝ) :=
  [(25.8, -80.2), (28.5, -81.4), (32.8, -79.9), (36.9, -76.2), (40.7, -74.0), (42.4, -71.1)]

/-- Gulf coastline reference points of `calculate_hurricane_risk`. -/
noncomputable def gulf_points : List (ℝ × ℝ) :=
  [(25.8, -80.2), (26.1, -81.8), (27.9, -82.5), (30.4, -84.3), (30.4, -87.2),
   (30.7, -88.0), (29.9, -90.1), (29.3, -94.8), (27.8, -97.4)]

/-- Atlantic coastal zone points of `calculate_sea_level_rise_risk`. -/
noncomputable def atlantic_coast : List (ℝ × ℝ) :=
  [(25.8, -80.2), (32.8, -79.9), (36.9, -76.2), (40.7, -74.0), (42.4, -71.1)]

/-- Gulf coastal zone points of `calculate_sea_level_rise_risk`. -/
noncomputable def gulf_coast : List (ℝ × ℝ) :=
  [(29.9, -90.1), (29.7, -95.4), (27.9, -82.5)]

/-- Pacific coastal zone points of `calculate_sea_level_rise_risk`
(San Diego, Los Angeles, San Francisco, Seattle). -/
noncomputable def pacific_coast : List (ℝ × ℝ) :=
  [(32.7, -117.2), (33.9, -118.2), (37.8, -122.4), (47.6, -122.3)]

/-- The `min_distance` loop of the coastal calculators: minimum Haversine
distance from the given coordinates to a (nonempty) list of reference points.
The source folds `min` starting from `float('inf')`; on the nonempty concrete
lists used this is the same minimum. -/
noncomputable def min_distance_to (lat lon : ℝ) : List (ℝ × ℝ) → ℝ
  | [] => 0
  | [p] => calculate_distance_miles lat lon p.1 p.2
  | p :: q :: rest =>
      min (calculate_distance_miles lat lon p.1 p.2) (min_distance_to lat lon (q :: rest))

/-- The distance-based hurricane score before the latitude adjustment
(`climate_risk_service.py`, lines 588-607). -/
noncomputable def hurricane_base_score (lat lon : ℝ) : ℝ :=
  let d := min_distance_to lat lon (atlantic_points ++ gulf_points)
  if d < 25 then 95
  else if d < 50 then 75
  else if d < 100 then 50
  else if d < 200 then 25
  else 5

/-- The hurricane score after the northern-latitude adjustment
(`climate_risk_service.py`, lines 609-613). -/
noncomputable def hurricane_risk_score (lat lon : ℝ) : ℝ :=
  let base := hurricane_base_score lat lon
  if lat > 40 then base * 0.6
  else if lat > 35 then base * 0.8
  else base

/-- The sea-level-rise score of `calculate_sea_level_rise_risk`
(`climate_risk_service.py`, lines 1005-1035). -/
noncomputable def sea_level_rise_score (lat lon : ℝ) : ℝ :=
  let d := min_distance_to lat lon (atlantic_coast ++ gulf_coast ++ pacific_coast)
  if d < 2 then 95
  else if d < 5 then 75
  else if d < 10 then 50
  else if d < 25 then 20
  else 0

/-- The `coastal_vulnerability` label of `calculate_sea_level_rise_risk`. -/
noncomputable def coastal_vulnerability (lat lon : ℝ) : String :=
  let d := min_distance_to lat lon (atlantic_coast ++ gulf_coast ++ pacific_coast)
  if d < 2 then "Very High"
  else if d < 5 then "High"
  else if d < 10 then "Moderate"
  else if d < 25 then "Low"
  else "N/A"

/-! ## Theorems -/

/-- Claim C1: `calculate_composite_risk` uses weights 30/25/25/20
(systematic/regulatory/idiosyncratic/climate) when a climate dict with a
`climate_risk_score` key and a `climate_risk_level` other than `'Unknown'` is
supplied, and weights 40/30/30 with climate weight 0 otherwise; in both cases
the chosen weights sum to 100 and the composite score is the corresponding
weighted sum of the sub-scores. -/
theorem composite_risk_weight_selection (s r i : ℚ) (d : ℤ) (c : Option ClimateDict) :
    (calculate_composite_risk s r i d c).systematic_weight +
      (calculate_composite_risk s r i d c).regulatory_weight +
      (calculate_composite_risk s r i d c).idiosyncratic_weight +
      (calculate_composite_risk s r i d c).climate_weight = 100 ∧
    (if hasClimateRisk c then
      (calculate_composite_risk s r i d c).systematic_weight = 30 ∧
      (calculate_composite_risk s r i d c).regulatory_weight = 25 ∧
      (calculate_composite_risk s r i d c).idiosyncratic_weight = 25 ∧
      (calculate_composite_risk s r i d c).climate_weight = 20 ∧
      (calculate_composite_risk s r i d c).composite_risk_score =
        pyRound 1 (s * 0.30 + r * 0.25 + i * 0.25 + climateScoreOf c * 0.20)
    else
      (calculate_composite_risk s r i d c).systematic_weight = 40 ∧
      (calculate_composite_risk s r i d c).regulatory_weight = 30 ∧
      (calculate_composite_risk s r i d c).idiosyncratic_weight = 30 ∧
      (calculate_composite_risk s r i d c).climate_weight = 0 ∧
      (calculate_composite_risk s r i d c).composite_risk_score =
        pyRound 1 (s * 0.40 + r * 0.30 + i * 0.30)) := by
  cases hc : hasClimateRisk c <;> simp [calculate_composite_risk, hc]

/-- Claim C2, counterexample: the claim as stated fails on a supplied AMI
percentage of 0.  With empty reference tables and state `"TX"`, the source
returns a regulatory risk score of 9 (the `if ami_percentage:` guard treats
`0.0` as absent), while the claimed five-component sum awards the 15-point
`AMI ≤ 50` bucket and equals 24. -/
theorem regulatory_ami_zero_counterexample :
    ¬ ((calculate_regulatory_risk emptyRegulatoryData "TX" none (some 0)).regulatory_risk_score
      = min (claimRegulatorySum emptyRegulatoryData "TX" none (some 0)) 100) := by
  have h1 : (calculate_regulatory_risk emptyRegulatoryData "TX" none
      (some 0)).regulatory_risk_score = pyRound 1 (min ((0:ℚ) + (3/2)/5*30 + 0 + 0 + 0) 100) := by
    simp [calculate_regulatory_risk, emptyRegulatoryData, lookupQ]
  have h2 : claimRegulatorySum emptyRegulatoryData "TX" none (some 0) = 24 := by
    norm_num [claimRegulatorySum, emptyRegulatoryData, lookupQ]
  rw [h1, h2]
  norm_num [pyRound, halfEvenRound, round_eq]

/-- Claim C2, amended: for every reference table, state, optional city and
optional AMI percentage, `calculate_regulatory_risk` returns the sum of the
five claimed components, with the AMI proximity component awarded only when
the AMI ratio is supplied and nonzero, the total capped at 100, and the
returned score rounded to one decimal. -/
theorem regulatory_risk_formula_amended (data : RegulatoryData) (state : String)
    (city : Option String) (ami : Option ℚ) :
    (calculate_regulatory_risk data state city ami).regulatory_risk_score =
      pyRound 1 (min (claimRegulatorySumAmended data state city ami) 100) := by
  simp only [calculate_regulatory_risk, claimRegulatorySumAmended, ite_self]

/-- Claim C3: the investment rating and its fixed numeric score are determined
by the threshold cascade on unlevered return, composite risk score and
arbitrage score: Strong Buy (90) iff return > 8, risk < 45 and arbitrage > 70;
else Buy (75) iff return > 6, risk < 55 and arbitrage > 55; else Hold (60) iff
return > 4 and risk < 65; else Consider (45) iff return > 2; else Pass (30). -/
theorem recommendation_rating_thresholds (u r a : ℚ) :
    (generate_recommendation u r a = ("Strong Buy", 90) ↔
      (u > 8 ∧ r < 45 ∧ a > 70)) ∧
    (generate_recommendation u r a = ("Buy", 75) ↔
      (¬(u > 8 ∧ r < 45 ∧ a > 70) ∧ (u > 6 ∧ r < 55 ∧ a > 55))) ∧
    (generate_recommendation u r a = ("Hold", 60) ↔
      (¬(u > 8 ∧ r < 45 ∧ a > 70) ∧ ¬(u > 6 ∧ r < 55 ∧ a > 55) ∧ (u > 4 ∧ r < 65))) ∧
    (generate_recommendation u r a = ("Consider", 45) ↔
      (¬(u > 8 ∧ r < 45 ∧ a > 70) ∧ ¬(u > 6 ∧ r < 55 ∧ a > 55) ∧
        ¬(u > 4 ∧ r < 65) ∧ u > 2)) ∧
    (generate_recommendation u r a = ("Pass", 30) ↔
      (¬(u > 8 ∧ r < 45 ∧ a > 70) ∧ ¬(u > 6 ∧ r < 55 ∧ a > 55) ∧
        ¬(u > 4 ∧ r < 65) ∧ ¬(u > 2))) := by
  unfold generate_recommendation
  split_ifs with h1 h2 h3 h4 <;> simp_all [Prod.ext_iff]

/-- Association-list lookup over the per-deal slots produced by the
comparison: with distinct deal ids, each id maps to its own generation
outcome. -/
theorem lookup_map_pair (gen : ℤ → Except String DealMemo) (ids : List ℤ) (i : ℤ)
    (h : i ∈ ids) (hnd : ids.Nodup) :
    (ids.map (fun j => (j, gen j))).lookup i = some (gen i) := by
  induction ids with
  | nil => cases h
  | cons x xs ih =>
      rcases List.mem_cons.1 h with rfl | hmem
      · simp [List.lookup]
      · have hne : i ≠ x := by
          rintro rfl
          exact (List.nodup_cons.1 hnd).1 hmem
        have hbeq : (i == x) = false := beq_eq_false_iff_ne.mpr hne
        simp only [List.map_cons, List.lookup, hbeq]
        exact ih hmem (List.nodup_cons.1 hnd).2

/-- Claim C4: for an accepted batch of distinct deal ids, a per-deal failure
does not abort the batch: the comparison succeeds, every id keeps its own
slot (a failing deal's slot holds its error entry), and each of the four
ranking lists is a permutation of exactly the deals whose memo generation
succeeded. -/
theorem comparison_isolates_failures (gen : ℤ → Except String DealMemo) (ids : List ℤ)
    (hnd : ids.Nodup) (h2 : 2 ≤ ids.length) (h5 : ids.length ≤ 5) :
    ∃ c, generate_comparison_memo gen ids = .ok c ∧
      c.deals = ids.map (fun i => (i, gen i)) ∧
      (∀ i ∈ ids, ∀ msg, gen i = .error msg → c.deals.lookup i = some (.error msg)) ∧
      (c.rankings.by_total_return.Perm (ids.filterMap (fun i =>
          match gen i with
          | .ok m => some (i, m)
          | .error _ => none)) ∧
       c.rankings.by_risk_adjusted_return.Perm (ids.filterMap (fun i =>
          match gen i with
          | .ok m => some (i, m)
          | .error _ => none)) ∧
       c.rankings.by_arbitrage_opportunity.Perm (ids.filterMap (fun i =>
          match gen i with
          | .ok m => some (i, m)
          | .error _ => none)) ∧
       c.rankings.by_overall_rating.Perm (ids.filterMap (fun i =>
          match gen i with
          | .ok m => some (i, m)
          | .error _ => none))) := by
  have hvalid : (ids.map (fun i => (i, gen i))).filterMap (fun p =>
      match p.2 with
      | .ok m => some (p.1, m)
      | .error _ => none) = ids.filterMap (fun i =>
      match gen i with
      | .ok m => some (i, m)
      | .error _ => none) := by
    rw [List.filterMap_map]
    rfl
  have hmain : generate_comparison_memo gen ids =
      .ok { deals := ids.map (fun i => (i, gen i)),
            rankings := rank_deals (ids.map (fun i => (i, gen i))) } := by
    unfold generate_comparison_memo
    rw [if_neg (by omega), if_neg (by omega)]
  refine ⟨_, hmain, rfl, ?_, ?_, ?_, ?_, ?_⟩
  · intro i hi msg hmsg
    show (ids.map (fun j => (j, gen j))).lookup i = some (.error msg)
    rw [lookup_map_pair gen ids i hi hnd, hmsg]
  all_goals
    simp only [rank_deals, sortDescBy]
    rw [hvalid]
    exact List.mergeSort_perm _ _

/-- A concrete deal memo used by witnesses, parameterised by its return. -/
def witnessMemo (x : ℚ) : DealMemo :=
  { total_return_levered := x
    total_return_unlevered := x
    composite_risk_score := 50
    arbitrage_opportunity_score := 60
    rating_score := 60 }

/-- A memo generator that fails on deal 2 (as a raised `ConfigurationError`)
and succeeds elsewhere. -/
def genWithOneFailure : ℤ → Except String DealMemo := fun i =>
  if i = 2 then .error "ConfigurationError" else .ok (witnessMemo (i : ℚ))

/-- A memo generator that always succeeds. -/
def genAllOk : ℤ → Except String DealMemo := fun i => .ok (witnessMemo (i : ℚ))

/-- Witness for claim C4: the three-deal batch `[1, 2, 3]` where deal 2 raises
a `ConfigurationError` still succeeds, deal 2's slot holds its error entry,
and the rankings cover exactly the two successful deals. -/
theorem comparison_isolates_failures_witness :
    ∃ c, generate_comparison_memo genWithOneFailure [1, 2, 3] = .ok c ∧
      c.deals = [1, 2, 3].map (fun i => (i, genWithOneFailure i)) ∧
      (∀ i ∈ [(1:ℤ), 2, 3], ∀ msg, genWithOneFailure i = .error msg →
        c.deals.lookup i = some (.error msg)) ∧
      (c.rankings.by_total_return.Perm ([1, 2, 3].filterMap (fun i =>
          match genWithOneFailure i with
          | .ok m => some (i, m)
          | .error _ => none)) ∧
       c.rankings.by_risk_adjusted_return.Perm ([1, 2, 3].filterMap (fun i =>
          match genWithOneFailure i with
          | .ok m => some (i, m)
          | .error _ => none)) ∧
       c.rankings.by_arbitrage_opportunity.Perm ([1, 2, 3].filterMap (fun i =>
          match genWithOneFailure i with
          | .ok m => some (i, m)
          | .error _ => none)) ∧
       c.rankings.by_overall_rating.Perm ([1, 2, 3].filterMap (fun i =>
          match genWithOneFailure i with
          | .ok m => some (i, m)
          | .error _ => none))) :=
  comparison_isolates_failures genWithOneFailure [1, 2, 3]
    (by decide) (by decide) (by decide)

/-- Claim C10: batches of fewer than 2 or more than 5 deal ids are rejected
with the corresponding `ValueError` before any per-deal computation (the
outcome is independent of the memo generator), and batches of 2 to 5 ids are
processed. -/
theorem comparison_batch_size_validation (gen gen2 : ℤ → Except String DealMemo)
    (ids : List ℤ) :
    (ids.length < 2 →
      generate_comparison_memo gen ids = .error "Need at least 2 deals to compare") ∧
    (ids.length > 5 →
      generate_comparison_memo gen ids = .error "Maximum 5 deals for comparison") ∧
    ((ids.length < 2 ∨ ids.length > 5) →
      generate_comparison_memo gen ids = generate_comparison_memo gen2 ids) ∧
    (2 ≤ ids.length → ids.length ≤ 5 →
      ∃ c, generate_comparison_memo gen ids = .ok c) := by
  unfold generate_comparison_memo
  refine ⟨fun h => ?_, fun h => ?_, fun h => ?_, fun h2 h5 => ?_⟩
  · rw [if_pos h]
  · rw [if_neg (by omega), if_pos h]
  · rcases h with h | h
    · rw [if_pos h, if_pos h]
    · rw [if_neg (by omega), if_pos h, if_neg (by omega), if_pos h]
  · rw [if_neg (by omega), if_neg (by omega)]
    exact ⟨_, rfl⟩

/-- Witness for claim C10: a singleton batch and a six-deal batch are rejected
with their respective messages (independently of the generator), while a
two-deal batch is processed. -/
theorem comparison_batch_size_validation_witness :
    generate_comparison_memo genAllOk [1] = .error "Need at least 2 deals to compare" ∧
    generate_comparison_memo genAllOk [1, 2, 3, 4, 5, 6] =
      .error "Maximum 5 deals for comparison" ∧
    generate_comparison_memo genAllOk [1] = generate_comparison_memo genWithOneFailure [1] ∧
    ∃ c, generate_comparison_memo genAllOk [1, 2] = .ok c :=
  ⟨(comparison_batch_size_validation genAllOk genWithOneFailure [1]).1 (by decide),
   (comparison_batch_size_validation genAllOk genWithOneFailure [1, 2, 3, 4, 5, 6]).2.1
     (by decide),
   (comparison_batch_size_validation genAllOk genWithOneFailure [1]).2.2.1
     (Or.inl (by decide)),
   (comparison_batch_size_validation genAllOk genWithOneFailure [1, 2]).2.2.2
     (by decide) (by decide)⟩

/-- Claim C7: starting from a cache with no entry for the rounded key, a first
wildfire request computes the score and stores it; a second request within the
TTL returns the identical score with `cached = True`; a request after TTL
expiry recomputes (`cached = False`, freshly computed score). -/
theorem wildfire_cache_roundtrip (cfg : ClimateConfig) (st : CacheState)
    (t0 t1 t2 lat lon ttl : ℚ)
    (httl : lookupQ cfg.cache_ttl_days "wildfire" = some ttl)
    (hmiss : st.find? (cache_key_match (pyRound 4 lat) (pyRound 4 lon) "wildfire") = none) :
    (calculate_wildfire_risk cfg st t0 lat lon).1.cached = some false ∧
    (calculate_wildfire_risk cfg st t0 lat lon).1.score =
      pyRound 1 (wildfire_base_score lat lon) ∧
    (t1 ≤ t0 + ttl * 86400 →
      (calculate_wildfire_risk cfg
          (calculate_wildfire_risk cfg st t0 lat lon).2 t1 lat lon).1.score =
        (calculate_wildfire_risk cfg st t0 lat lon).1.score ∧
      (calculate_wildfire_risk cfg
          (calculate_wildfire_risk cfg st t0 lat lon).2 t1 lat lon).1.cached = some true) ∧
    (t0 + ttl * 86400 < t2 →
      (calculate_wildfire_risk cfg
          (calculate_wildfire_risk cfg st t0 lat lon).2 t2 lat lon).1.cached = some false ∧
      (calculate_wildfire_risk cfg
          (calculate_wildfire_risk cfg st t0 lat lon).2 t2 lat lon).1.score =
        pyRound 1 (wildfire_base_score lat lon)) := by
  have hget1 : get_cached_risk st t0 lat lon "wildfire" = (none, st) := by
    simp only [get_cached_risk, hmiss]
  set e : ClimateRiskCacheEntry :=
    { latitude := pyRound 4 lat, longitude := pyRound 4 lon, hazard_type := "wildfire",
      risk_score := pyRound 1 (wildfire_base_score lat lon),
      data_source := "Geographic heuristics", created_at := t0,
      expires_at := some (t0 + ttl * 86400) } with he
  have hstore : store_in_cache st t0 lat lon "wildfire"
      (pyRound 1 (wildfire_base_score lat lon)) "Geographic heuristics" ttl = st ++ [e] := by
    simp only [store_in_cache, hmiss, he]
  have hfirst : calculate_wildfire_risk cfg st t0 lat lon =
      ({ score := pyRound 1 (wildfire_base_score lat lon), cached := some false,
         data_source := "Geographic heuristics (simplified)",
         label := some (wildfire_hazard_level (wildfire_base_score lat lon)),
         error := none }, st ++ [e]) := by
    simp only [calculate_wildfire_risk, hget1, httl, hstore]
  have hkey : cache_key_match (pyRound 4 lat) (pyRound 4 lon) "wildfire" e = true := by
    simp [cache_key_match, he]
  have hfind2 : (st ++ [e]).find?
      (cache_key_match (pyRound 4 lat) (pyRound 4 lon) "wildfire") = some e := by
    rw [List.find?_append, hmiss]
    simp [List.find?, hkey]
  refine ⟨by rw [hfirst], by rw [hfirst], fun hin => ?_, fun hout => ?_⟩
  · have hexp : is_expired t1 e = false := by
      simp only [is_expired, he, decide_eq_false_iff_not, not_lt]
      exact hin
    have hget2 : get_cached_risk (st ++ [e]) t1 lat lon "wildfire" =
        (some { score := e.risk_score, data_source := e.data_source,
                cached := true, cached_at := e.created_at }, st ++ [e]) := by
      simp only [get_cached_risk, hfind2, hexp, Bool.false_eq_true, if_false]
    rw [hfirst]
    constructor
    · show (calculate_wildfire_risk cfg (st ++ [e]) t1 lat lon).1.score = _
      simp only [calculate_wildfire_risk, hget2]
    · show (calculate_wildfire_risk cfg (st ++ [e]) t1 lat lon).1.cached = some true
      simp only [calculate_wildfire_risk, hget2]
  · have hexp : is_expired t2 e = true := by
      simp only [is_expired, he, decide_eq_true_eq]
      exact hout
    have herase : (st ++ [e]).eraseP
        (cache_key_match (pyRound 4 lat) (pyRound 4 lon) "wildfire") = st := by
      rw [List.eraseP_append_right [e] (List.find?_eq_none.1 hmiss)]
      simp [List.eraseP, hkey]
    have hget3 : get_cached_risk (st ++ [e]) t2 lat lon "wildfire" = (none, st) := by
      simp only [get_cached_risk, hfind2, hexp, if_true, herase]
    rw [hfirst]
    constructor
    · show (calculate_wildfire_risk cfg (st ++ [e]) t2 lat lon).1.cached = some false
      simp only [calculate_wildfire_risk, hget3, httl]
    · show (calculate_wildfire_risk cfg (st ++ [e]) t2 lat lon).1.score = _
      simp only [calculate_wildfire_risk, hget3, httl]

def witnessClimateConfig : ClimateConfig :=
  { cache_ttl_days := [("flood", 365), ("wildfire", 90)]
    hazard_weights := [("flood", 0.20), ("wildfire", 0.18)]
    flood_zone_mappings := [("AE", (70, 85))]
    flood_default := (25, 50) }

/-- Witness for claim C7 at a California coordinate with a 90-day wildfire
TTL: the second request one day later is a cache hit, the request after the
TTL window recomputes. -/
theorem wildfire_cache_roundtrip_witness :
    ((calculate_wildfire_risk witnessClimateConfig [] 0 34 (-118)).1.cached = some false ∧
     (calculate_wildfire_risk witnessClimateConfig [] 0 34 (-118)).1.score =
       pyRound 1 (wildfire_base_score 34 (-118))) ∧
    ((calculate_wildfire_risk witnessClimateConfig
        (calculate_wildfire_risk witnessClimateConfig [] 0 34 (-118)).2
        86400 34 (-118)).1.score =
      (calculate_wildfire_risk witnessClimateConfig [] 0 34 (-118)).1.score ∧
     (calculate_wildfire_risk witnessClimateConfig
        (calculate_wildfire_risk witnessClimateConfig [] 0 34 (-118)).2
        86400 34 (-118)).1.cached = some true) ∧
    ((calculate_wildfire_risk witnessClimateConfig
        (calculate_wildfire_risk witnessClimateConfig [] 0 34 (-118)).2
        10000000 34 (-118)).1.cached = some false ∧
     (calculate_wildfire_risk witnessClimateConfig
        (calculate_wildfire_risk witnessClimateConfig [] 0 34 (-118)).2
        10000000 34 (-118)).1.score = pyRound 1 (wildfire_base_score 34 (-118))) :=
  have thm := wildfire_cache_roundtrip witnessClimateConfig [] 0 86400 10000000
    34 (-118) 90 (by rfl) (by rfl)
  ⟨⟨thm.1, thm.2.1⟩, thm.2.2.1 (by norm_num), thm.2.2.2 (by norm_num)⟩

/-- Claim C6: a cache read never serves an expired entry.  If the stored entry
for the rounded key is expired, `_get_cached_risk` deletes it and reports a
miss; and any entry it does return to the caller was found non-expired (with
the cache left unchanged). -/
theorem cache_read_never_serves_expired (st : CacheState) (now lat lon : ℚ) (hazard : String) :
    (∀ e, st.find? (cache_key_match (pyRound 4 lat) (pyRound 4 lon) hazard) = some e →
      is_expired now e = true →
      get_cached_risk st now lat lon hazard =
        (none, st.eraseP (cache_key_match (pyRound 4 lat) (pyRound 4 lon) hazard))) ∧
    (∀ r st2, get_cached_risk st now lat lon hazard = (some r, st2) →
      ∃ e, st.find? (cache_key_match (pyRound 4 lat) (pyRound 4 lon) hazard) = some e ∧
        is_expired now e = false ∧ r.score = e.risk_score ∧ st2 = st) := by
  constructor
  · intro e he hexp
    simp only [get_cached_risk, he, hexp]
    rfl
  · intro r st2 h
    simp only [get_cached_risk] at h
    cases hfind : st.find? (cache_key_match (pyRound 4 lat) (pyRound 4 lon) hazard) with
    | none => rw [hfind] at h; simp at h
    | some e =>
        rw [hfind] at h
        cases hexp : is_expired now e with
        | true => simp [hexp] at h
        | false =>
            simp only [hexp, Bool.false_eq_true, if_false, Prod.mk.injEq,
              Option.some.injEq] at h
            exact ⟨e, rfl, hexp, by rw [← h.1], h.2.symm⟩

/-- A cache entry whose expiry time (10) is already in the past at read
time 20. -/
def expiredEntry : ClimateRiskCacheEntry :=
  { latitude := 1, longitude := 2, hazard_type := "flood", risk_score := 55,
    data_source := "FEMA NFHL", created_at := 0, expires_at := some 10 }

/-- A cache entry still valid (expiry 100) at read time 20. -/
def freshEntry : ClimateRiskCacheEntry :=
  { latitude := 1, longitude := 2, hazard_type := "flood", risk_score := 55,
    data_source := "FEMA NFHL", created_at := 0, expires_at := some 100 }

/-- Rounding an integral coordinate to 4 decimals is the identity. -/
theorem pyRound_four_one : pyRound 4 (1:ℚ) = 1 := by
  norm_num [pyRound, halfEvenRound, round_eq]

/-- Rounding an integral coordinate to 4 decimals is the identity. -/
theorem pyRound_four_two : pyRound 4 (2:ℚ) = 2 := by
  norm_num [pyRound, halfEvenRound, round_eq]

/-- Witness for claim C6: reading key (1, 2, flood) at time 20 from a cache
whose entry expired at time 10 evicts the entry and misses; reading a cache
whose entry expires at time 100 serves that non-expired entry unchanged. -/
theorem cache_read_never_serves_expired_witness :
    (get_cached_risk [expiredEntry] 20 1 2 "flood" =
      (none, List.eraseP (cache_key_match (pyRound 4 1) (pyRound 4 2) "flood")
        [expiredEntry])) ∧
    (∃ e, [freshEntry].find? (cache_key_match (pyRound 4 1) (pyRound 4 2) "flood") = some e ∧
      is_expired 20 e = false ∧
      ({ score := 55, data_source := "FEMA NFHL", cached := true,
         cached_at := 0 } : CachedRisk).score = e.risk_score ∧
      ([freshEntry] : CacheState) = [freshEntry]) :=
  ⟨(cache_read_never_serves_expired [expiredEntry] 20 1 2 "flood").1 expiredEntry
      (by rw [pyRound_four_one, pyRound_four_two]; decide) (by decide),
   (cache_read_never_serves_expired [freshEntry] 20 1 2 "flood").2
      { score := 55, data_source := "FEMA NFHL", cached := true, cached_at := 0 }
      [freshEntry]
      (by simp only [get_cached_risk]; rw [pyRound_four_one, pyRound_four_two]; decide)⟩

/-- Claim C5: a hazard calculator never propagates an external-lookup failure:
on a FEMA lookup error (with no cached value) the flood calculator returns the
fixed degraded default — score 25.0 and a `data_source` containing
`"(unavailable)"` — leaving the cache untouched; and whenever the composite
climate aggregation's body raises, the composite returns a result with
`climate_risk_level 'Unknown'` (score 25.0) instead of raising. -/
theorem hazard_failures_degrade_locally :
    (∀ (cfg : ClimateConfig) (st : CacheState) (now lat lon : ℚ) (e : String),
      st.find? (cache_key_match (pyRound 4 lat) (pyRound 4 lon) "flood") = none →
      calculate_flood_risk cfg st now lat lon (.error e) =
        ({ score := 25, cached := none, data_source := "FEMA NFHL (unavailable)",
           label := some "Unknown", error := some e }, st)) ∧
    ("FEMA NFHL (unavailable)" = "FEMA NFHL " ++ "(unavailable)" ++ "") ∧
    (∀ (weights hazards : List (String × ℚ)) (msg : String),
      composite_weighted_sum weights hazards = .error msg →
      (calculate_composite_climate_risk weights hazards).climate_risk_level = "Unknown" ∧
      (calculate_composite_climate_risk weights hazards).climate_risk_score = 25) := by
  refine ⟨fun cfg st now lat lon e hmiss => ?_, rfl, fun weights hazards msg herr => ?_⟩
  · have hget : get_cached_risk st now lat lon "flood" = (none, st) := by
      simp only [get_cached_risk, hmiss]
    simp only [calculate_flood_risk, hget]
  · simp [calculate_composite_climate_risk, herr]

/-- Witness for claim C5: a concrete timed-out FEMA lookup on an empty cache,
and a composite aggregation with an empty weight table (so the first
`hazard_weights[...]` access raises `KeyError`). -/
theorem hazard_failures_degrade_locally_witness :
    (calculate_flood_risk witnessClimateConfig [] 0 1 2 (.error "timeout") =
      ({ score := 25, cached := none, data_source := "FEMA NFHL (unavailable)",
         label := some "Unknown", error := some "timeout" }, [])) ∧
    ((calculate_composite_climate_risk [] [("flood", 10)]).climate_risk_level = "Unknown" ∧
     (calculate_composite_climate_risk [] [("flood", 10)]).climate_risk_score = 25) :=
  ⟨(hazard_failures_degrade_locally).1 witnessClimateConfig [] 0 1 2 "timeout" (by rfl),
   (hazard_failures_degrade_locally).2.2 [] [("flood", 10)] "KeyError: flood" (by rfl)⟩

/-- Claim C9: the Haversine distance is symmetric in its two coordinate pairs
and zero on identical pairs. -/
theorem distance_symmetric_and_zero (lat1 lon1 lat2 lon2 : ℝ) :
    calculate_distance_miles lat1 lon1 lat2 lon2 =
      calculate_distance_miles lat2 lon2 lat1 lon1 ∧
    calculate_distance_miles lat1 lon1 lat1 lon1 = 0 := by
  constructor
  · simp only [calculate_distance_miles]
    have hlat : Real.sin ((radians lat1 - radians lat2) / 2) ^ 2 =
        Real.sin ((radians lat2 - radians lat1) / 2) ^ 2 := by
      rw [show (radians lat1 - radians lat2) / 2 =
        -((radians lat2 - radians lat1) / 2) by ring, Real.sin_neg]
      ring
    have hlon : Real.sin ((radians lon1 - radians lon2) / 2) ^ 2 =
        Real.sin ((radians lon2 - radians lon1) / 2) ^ 2 := by
      rw [show (radians lon1 - radians lon2) / 2 =
        -((radians lon2 - radians lon1) / 2) by ring, Real.sin_neg]
      ring
    rw [hlat, hlon, mul_comm (Real.cos (radians lat2)) (Real.cos (radians lat1))]
  · simp [calculate_distance_miles]

/-- On `[0, 1]`, `arcsin` dominates the identity. -/
theorem arcsin_ge_self (x : ℝ) (h0 : 0 ≤ x) (h1 : x ≤ 1) : x ≤ Real.arcsin x := by
  have hs : Real.sin (Real.arcsin x) = x := Real.sin_arcsin (by linarith) h1
  have hnn : 0 ≤ Real.arcsin x := Real.arcsin_nonneg.2 h0
  calc x = Real.sin (Real.arcsin x) := hs.symm
    _ ≤ Real.arcsin x := Real.sin_le hnn

/-- Core numeric bound: from the equator point at longitude -95, the latitude
term of the Haversine formula alone already pushes the distance to any point
with latitude in `[25.8, 47.6]` far beyond 200 miles. -/
theorem far_bound_core (lat2 w : ℝ) (h1 : 25.8 ≤ lat2) (h2 : lat2 ≤ 47.6) (hw : 0 ≤ w) :
    200 < 2 * Real.arcsin (Real.sqrt
      (Real.sin (radians lat2 / 2) ^ 2 + Real.cos (radians lat2) * w)) * 3956 := by
  have hπl : 3.141592 < Real.pi := Real.pi_gt_d6
  have hπu : Real.pi < 3.141593 := Real.pi_lt_d6
  have hxdef : radians lat2 / 2 = lat2 * Real.pi / 360 := by
    simp only [radians]
    ring
  have hxl : (0.2251 : ℝ) ≤ lat2 * Real.pi / 360 := by
    nlinarith [mul_nonneg (sub_nonneg.2 h1) (sub_nonneg.2 hπl.le)]
  have hxu : lat2 * Real.pi / 360 ≤ 0.416 := by
    nlinarith [mul_nonneg (sub_nonneg.2 h2) (sub_nonneg.2 hπu.le)]
  have hsin : (0.2 : ℝ) < Real.sin (lat2 * Real.pi / 360) := by
    have hgt := Real.sin_gt_sub_cube (x := lat2 * Real.pi / 360) (by linarith) (by linarith)
    have hcube : (lat2 * Real.pi / 360) ^ 3 ≤ 0.416 ^ 3 :=
      pow_le_pow_left₀ (by linarith) hxu 3
    nlinarith [hgt, hcube]
  have hcos : 0 ≤ Real.cos (radians lat2) := by
    apply Real.cos_nonneg_of_neg_pi_div_two_le_of_le
    · simp only [radians]
      nlinarith
    · simp only [radians]
      nlinarith
  have hsq : (0.2 : ℝ) ^ 2 ≤
      Real.sin (radians lat2 / 2) ^ 2 + Real.cos (radians lat2) * w := by
    rw [hxdef]
    nlinarith [hsin, mul_nonneg hcos hw]
  have hsqrt : (0.2 : ℝ) ≤ Real.sqrt
      (Real.sin (radians lat2 / 2) ^ 2 + Real.cos (radians lat2) * w) :=
    Real.le_sqrt_of_sq_le hsq
  have harc := Real.monotone_arcsin hsqrt
  have harc0 : (0.2 : ℝ) ≤ Real.arcsin 0.2 :=
    arcsin_ge_self 0.2 (by norm_num) (by norm_num)
  nlinarith [harc, harc0]

/-- Distance from the concrete witness coordinates `(0, -95)` to any point in
the latitude band of the coastal reference lists exceeds 200 miles. -/
theorem dist_from_witness_point (lat2 lon2 : ℝ) (h1 : 25.8 ≤ lat2) (h2 : lat2 ≤ 47.6) :
    200 < calculate_distance_miles 0 (-95) lat2 lon2 := by
  have hrad0 : radians (0 : ℝ) = 0 := by simp [radians]
  simp only [calculate_distance_miles, hrad0, sub_zero, Real.cos_zero, one_mul]
  exact far_bound_core lat2 (Real.sin ((radians lon2 - radians (-95)) / 2) ^ 2)
    h1 h2 (sq_nonneg _)

/-- A lower bound on every distance to a nonempty point list bounds the
minimum distance. -/
theorem lt_min_distance_of_forall (lat lon c : ℝ) :
    ∀ l : List (ℝ × ℝ), (∀ p ∈ l, c < calculate_distance_miles lat lon p.1 p.2) →
      l ≠ [] → c < min_distance_to lat lon l := by
  intro l
  induction l with
  | nil => intro _ h; exact absurd rfl h
  | cons p tl ih =>
      intro hall _
      cases tl with
      | nil => simpa [min_distance_to] using hall p (by simp)
      | cons q rest =>
          show c < min (calculate_distance_miles lat lon p.1 p.2)
            (min_distance_to lat lon (q :: rest))
          apply lt_min
          · exact hall p (by simp)
          · exact ih (fun r hr => hall r (by simp [hr])) (by simp)

/-- The witness coordinates are over 200 miles from every hurricane coastal
reference point. -/
theorem far_from_witness_hurricane :
    200 < min_distance_to 0 (-95) (atlantic_points ++ gulf_points) := by
  apply lt_min_distance_of_forall
  · intro p hp
    simp only [atlantic_points, gulf_points, List.mem_append, List.mem_cons,
      List.not_mem_nil, or_false] at hp
    rcases hp with (rfl|rfl|rfl|rfl|rfl|rfl)|(rfl|rfl|rfl|rfl|rfl|rfl|rfl|rfl|rfl) <;>
      exact dist_from_witness_point _ _ (by norm_num) (by norm_num)
  · simp [atlantic_points, gulf_points]

/-- The witness coordinates are over 200 miles from every sea-level-rise
coastal reference point. -/
theorem far_from_witness_slr :
    200 < min_distance_to 0 (-95) (atlantic_coast ++ gulf_coast ++ pacific_coast) := by
  apply lt_min_distance_of_forall
  · intro p hp
    simp only [atlantic_coast, gulf_coast, pacific_coast, List.mem_append, List.mem_cons,
      List.not_mem_nil, or_false] at hp
    rcases hp with ((rfl|rfl|rfl|rfl|rfl)|(rfl|rfl|rfl))|(rfl|rfl|rfl|rfl) <;>
      exact dist_from_witness_point _ _ (by norm_num) (by norm_num)
  · simp [atlantic_coast, gulf_coast, pacific_coast]

/-- Claim C8: for coordinates whose minimum Haversine distance to each
calculator's coastal reference points exceeds 200 miles, the hurricane risk
score before the latitude adjustment is at most 5, and the sea-level-rise
score is 0 with coastal vulnerability `'N/A'`. -/
theorem far_from_coast_scores (lat lon : ℝ)
    (hh : 200 < min_distance_to lat lon (atlantic_points ++ gulf_points))
    (hs : 200 < min_distance_to lat lon (atlantic_coast ++ gulf_coast ++ pacific_coast)) :
    hurricane_base_score lat lon ≤ 5 ∧
    sea_level_rise_score lat lon = 0 ∧
    coastal_vulnerability lat lon = "N/A" := by
  refine ⟨?_, ?_, ?_⟩
  · simp only [hurricane_base_score]
    rw [if_neg (by linarith), if_neg (by linarith), if_neg (by linarith),
      if_neg (by linarith)]
  · simp only [sea_level_rise_score]
    rw [if_neg (by linarith), if_neg (by linarith), if_neg (by linarith),
      if_neg (by linarith)]
  · simp only [coastal_vulnerability]
    rw [if_neg (by linarith), if_neg (by linarith), if_neg (by linarith),
      if_neg (by linarith)]

/-- Witness for claim C8 at the equatorial point `(0, -95)`, which is more
than 200 miles from every coastal reference point of both calculators. -/
theorem far_from_coast_scores_witness :
    (200 < min_distance_to 0 (-95) (atlantic_points ++ gulf_points) ∧
     200 < min_distance_to 0 (-95) (atlantic_coast ++ gulf_coast ++ pacific_coast)) ∧
    (hurricane_base_score 0 (-95) ≤ 5 ∧ sea_level_rise_score 0 (-95) = 0 ∧
     coastal_vulnerability 0 (-95) = "N/A") :=
  ⟨⟨far_from_witness_hurricane, far_from_witness_slr⟩,
   far_from_coast_scores 0 (-95) far_from_witness_hurricane far_from_witness_slr⟩
